import Mathlib

/-!
Verification of the session-synchronized chat client in `streamlit_app.py`
(repository `langgraph-streamlit`).

The embedding models the session state (`st.session_state`: `messages`,
`thread_id`, `api_available`), the `send_message` API wrapper, and the three
event handlers that mutate the state: the chat-input handler, the
"Clear Chat" button handler, and the "Load History" button handler.

Network effects are modelled as oracle inputs: an HTTP outcome is a value of
`SendOutcome`, and handlers receive the (would-be) API result as a parameter.
Whether a network call was actually issued is returned as an explicit boolean.
Wall-clock readings (`datetime.now()`) are likewise passed in explicitly: the
millisecond stamps for the two appended messages as integers, and the
`strftime` second-granularity string used to mint a thread identifier.
-/

/-- A message in the local log: `{"role": ..., "content": ..., "timestamp": ...}`
as appended to `st.session_state.messages`.  `timestamp` is `None` (here `none`)
when a backend history entry carries no timestamp. -/
structure Message where
  role : String
  content : String
  timestamp : Option Int
deriving DecidableEq

/-- A raw backend history entry, before defaulting: each of the three JSON keys
may be absent (`msg.get(...)` in the source). -/
structure RawMsg where
  role : Option String
  content : Option String
  timestamp : Option Int
deriving DecidableEq

/-- The JSON dictionary returned by `send_message`.  `some v` means the key is
present with string/list value `v`; `none` means the key is absent.
`"error" in result` is modelled by `error.isSome`. -/
structure ChatResult where
  error : Option String
  response : Option String
  conversationHistory : Option (List RawMsg)
deriving DecidableEq

/-- `st.session_state`: the ordered message log, the thread identifier, and the
API-availability flag. -/
structure SessionState where
  messages : List Message
  thread_id : String
  api_available : Bool
deriving DecidableEq

/-- The outcome of the HTTP POST inside `send_message`: a response with a
status code (whose parsed JSON and raw text body are carried along), a
`requests.exceptions.Timeout`, or another `requests.exceptions.RequestException`
with its string description. -/
inductive SendOutcome where
  | http (status : Nat) (json : ChatResult) (body : String)
  | timeout
  | netError (desc : String)
deriving DecidableEq

/-- `send_message` (lines 62-88): on HTTP 200 return the parsed JSON; on any
other status return `{"error": "API error: <code>", "response": <raw body>}`;
on timeout return the fixed timeout dictionary; on any other request exception
return `{"error": str(e), "response": "Error connecting to API: " + str(e)}`. -/
def send_message : SendOutcome → ChatResult
  | .http status json body =>
      if status = 200 then json
      else { error := some ("API error: " ++ toString status),
             response := some body,
             conversationHistory := none }
  | .timeout =>
      { error := some "Request timeout",
        response := some "The request took too long. Please try again.",
        conversationHistory := none }
  | .netError desc =>
      { error := some desc,
        response := some ("Error connecting to API: " ++ desc),
        conversationHistory := none }

/-- Conversion of a backend history list into local messages, as performed by
the per-entry loops (lines 179-184 and 214-219): missing `role` defaults to
`"assistant"`, missing `content` to `""`, `timestamp` is passed through. -/
def convertHistory (h : List RawMsg) : List Message :=
  h.map fun m =>
    { role := m.role.getD "assistant",
      content := m.content.getD "",
      timestamp := m.timestamp }

/-- Appending the user message followed by an assistant-role message, the shape
shared by the error branch (lines 164-173) and the single-response fallback
branch (lines 188-197).  `t1` and `t2` are the two `datetime.now()` readings in
milliseconds. -/
def appendPair (st : SessionState) (prompt respText : String) (t1 t2 : Int) :
    SessionState :=
  { st with messages := st.messages ++
      [ { role := "user", content := prompt, timestamp := some t1 },
        { role := "assistant", content := respText, timestamp := some t2 } ] }

/-- Processing of a `send_message` result by the chat-input handler
(lines 160-197): if the result has an `"error"` key, append the user message
and an `"Error: "`-prefixed assistant message whose text is
`result.get('response', 'No response received')`; otherwise, if
`conversationHistory` is present and truthy (a nonempty list), replace the
whole log by its conversion; otherwise append the user message and
`result.get('response', 'No response received')`. -/
def processResult (st : SessionState) (prompt : String) (result : ChatResult)
    (t1 t2 : Int) : SessionState :=
  if result.error.isSome then
    appendPair st prompt
      ("Error: " ++ result.response.getD "No response received") t1 t2
  else
    match result.conversationHistory with
    | some h =>
        if h.isEmpty then
          appendPair st prompt (result.response.getD "No response received") t1 t2
        else
          { st with messages := convertHistory h }
    | none =>
        appendPair st prompt (result.response.getD "No response received") t1 t2

/-- The chat-input handler (lines 150-200): if `api_available` is false the
submission is rejected by `st.stop()` before any network call, leaving the
state untouched; otherwise `send_message` is invoked (its result is the oracle
parameter `result`) and processed.  The boolean component records whether a
network call was issued. -/
def handleChatInput (st : SessionState) (prompt : String) (result : ChatResult)
    (t1 t2 : Int) : SessionState × Bool :=
  if st.api_available then (processResult st prompt result t1 t2, true)
  else (st, false)

/-- The "Clear Chat" button handler (lines 204-207): reset the log and mint the
thread identifier from the current `strftime('%Y%m%d_%H%M%S')` reading, passed
in as `nowStr`.  The handler makes no API call, which is reflected by the
absence of any `SendOutcome`/history parameter. -/
def clearChat (st : SessionState) (nowStr : String) : SessionState :=
  { st with messages := [], thread_id := "thread_" ++ nowStr }

/-- The user-visible notice produced by the "Load History" button handler:
`st.success(...)`, `st.info("No history found")`, or
`st.error("API is not available")`. -/
inductive Notice where
  | success (n : Nat)
  | info
  | error
deriving DecidableEq

/-- The "Load History" button handler (lines 209-225): when the API is
available, fetch the history (the oracle parameter `history` is what
`load_history()` returned); a nonempty history replaces the log wholesale and
shows a success notice with the entry count, an empty one leaves the state and
shows an informational notice; when unavailable, show an error and leave the
state. -/
def loadHistoryClick (st : SessionState) (history : List RawMsg) :
    SessionState × Notice :=
  if st.api_available then
    if history.isEmpty then (st, Notice.info)
    else ({ st with messages := convertHistory history },
          Notice.success history.length)
  else (st, Notice.error)

/-- A single state-mutating backend-synchronising operation: a chat-input send
or an explicit history reload. -/
inductive Operation where
  | send (prompt : String) (result : ChatResult) (t1 t2 : Int)
  | reload (history : List RawMsg)
deriving DecidableEq

/-- Applying an operation to the session state. -/
def applyOp (st : SessionState) : Operation → SessionState
  | .send prompt result t1 t2 => (handleChatInput st prompt result t1 t2).1
  | .reload history => (loadHistoryClick st history).1

/-- An operation completes successfully when it is not rejected: a send
requires `api_available` (otherwise `st.stop()` fires), and a reload succeeds
(shows the `st.success` notice) when the API is available and the fetched
history is nonempty. -/
def opSucceeds (st : SessionState) : Operation → Bool
  | .send _ _ _ _ => st.api_available
  | .reload history => st.api_available && !history.isEmpty

/-- The backend-provided history carried by an operation: for a send, the list
under the result's `conversationHistory` key (empty when the key is absent);
for a reload, the fetched history itself. -/
def opHistory : Operation → List RawMsg
  | .send _ result _ _ => result.conversationHistory.getD []
  | .reload history => history

/-- One send event of a sequence: the submitted prompt, the oracle API result,
and the two clock readings. -/
structure SendEvent where
  prompt : String
  result : ChatResult
  t1 : Int
  t2 : Int
deriving DecidableEq

/-- Folding a sequence of chat-input submissions over the session state. -/
def runSends (st : SessionState) (evs : List SendEvent) : SessionState :=
  evs.foldl (fun s e => (handleChatInput s e.prompt e.result e.t1 e.t2).1) st

/-- A send event whose result is successful (no `"error"` key) and carries a
full conversation history: the `conversationHistory` key is present and truthy
(a nonempty list). -/
def fullHistoryEvent (e : SendEvent) : Bool :=
  e.result.error.isNone && !(e.result.conversationHistory.getD []).isEmpty

/-- Display text of an error outcome as the code actually produces it: the
fixed timeout sentence, the literal raw HTTP body on a non-200 response, and
`"Error connecting to API: "` followed by the failure description on any other
request exception.  (This is the amended per-case enumeration; the generic
`"No response received"` default is unreachable from these outcomes because
`send_message` always sets the `response` key on them.) -/
def errorDisplayText : SendOutcome → String
  | .http _ _ body => body
  | .timeout => "The request took too long. Please try again."
  | .netError desc => "Error connecting to API: " ++ desc

/-- An outcome on which `send_message` returns an error result: a non-200
response, a timeout, or another request exception. -/
def isErrorOutcome : SendOutcome → Bool
  | .http status _ _ => status != 200
  | .timeout => true
  | .netError _ => true

/- ## Preservation lemmas -/

/-- `processResult` never touches the availability flag. -/
theorem processResult_api (st : SessionState) (p : String) (r : ChatResult)
    (t1 t2 : Int) : (processResult st p r t1 t2).api_available = st.api_available := by
  unfold processResult appendPair
  repeat' split
  all_goals rfl

/-- The chat-input handler never touches the availability flag. -/
theorem handleChatInput_api (st : SessionState) (p : String) (r : ChatResult)
    (t1 t2 : Int) :
    ((handleChatInput st p r t1 t2).1).api_available = st.api_available := by
  unfold handleChatInput
  split
  · exact processResult_api st p r t1 t2
  · rfl

/-- A sequence of sends never touches the availability flag. -/
theorem runSends_api (evs : List SendEvent) (st : SessionState) :
    (runSends st evs).api_available = st.api_available := by
  induction evs generalizing st with
  | nil => rfl
  | cons e rest ih =>
      show (runSends ((handleChatInput st e.prompt e.result e.t1 e.t2).1) rest).api_available = _
      rw [ih, handleChatInput_api]

/- ## Claims -/

/-- C1: For every session state and every completed send or reload operation
that succeeds, the resulting messages log is exactly one of: (a) the
backend-provided history sequence carried by that very operation (the
`conversationHistory` of the send result, or the fetched history of the
reload), verbatim after the per-entry defaulting conversion, or (b) the
previous log with exactly one new user message and one new assistant/error
message appended, in that order. -/
theorem send_reload_log_shape (st : SessionState) (op : Operation)
    (hs : opSucceeds st op = true) :
    ((applyOp st op).messages = convertHistory (opHistory op)) ∨
    (∃ u a : Message, u.role = "user" ∧ a.role = "assistant" ∧
      (applyOp st op).messages = st.messages ++ [u, a]) := by
  cases op with
  | send prompt result t1 t2 =>
      simp only [opSucceeds] at hs
      simp only [applyOp, handleChatInput, hs, if_true]
      by_cases he : result.error.isSome
      · right
        exact ⟨⟨"user", prompt, some t1⟩,
          ⟨"assistant", "Error: " ++ result.response.getD "No response received", some t2⟩,
          rfl, rfl, by simp [processResult, appendPair, he]⟩
      · cases hch : result.conversationHistory with
        | none =>
            right
            exact ⟨⟨"user", prompt, some t1⟩,
              ⟨"assistant", result.response.getD "No response received", some t2⟩,
              rfl, rfl, by simp [processResult, appendPair, he, hch]⟩
        | some h =>
            by_cases hemp : h.isEmpty
            · right
              exact ⟨⟨"user", prompt, some t1⟩,
                ⟨"assistant", result.response.getD "No response received", some t2⟩,
                rfl, rfl, by simp [processResult, appendPair, he, hch, hemp]⟩
            · left
              simp [opHistory, processResult, he, hch, hemp]
  | reload history =>
      simp only [opSucceeds, Bool.and_eq_true, Bool.not_eq_true'] at hs
      obtain ⟨hav, hne⟩ := hs
      left
      simp [applyOp, opHistory, loadHistoryClick, hav, hne]

/-- Witness for C1: a concrete successful send whose result carries a full
history lands in disjunct (a), with the log pinned to that result's own
history. -/
theorem send_reload_log_shape_witness :
    opSucceeds ⟨[⟨"user", "old", none⟩], "thread_20250101_000000", true⟩
      (Operation.send "hi" ⟨none, none, some [⟨some "user", some "hi", some 5⟩]⟩ 1 2) = true ∧
    (((applyOp ⟨[⟨"user", "old", none⟩], "thread_20250101_000000", true⟩
          (Operation.send "hi" ⟨none, none, some [⟨some "user", some "hi", some 5⟩]⟩ 1 2)).messages =
        convertHistory (opHistory
          (Operation.send "hi" ⟨none, none, some [⟨some "user", some "hi", some 5⟩]⟩ 1 2))) ∨
      (∃ u a : Message, u.role = "user" ∧ a.role = "assistant" ∧
        (applyOp ⟨[⟨"user", "old", none⟩], "thread_20250101_000000", true⟩
          (Operation.send "hi" ⟨none, none, some [⟨some "user", some "hi", some 5⟩]⟩ 1 2)).messages =
          [⟨"user", "old", none⟩] ++ [u, a])) :=
  ⟨rfl, send_reload_log_shape _ _ rfl⟩

/-- C2: after any nonempty sequence of successful sends each carrying a full
conversation history, the local log equals exactly the conversion of the last
full history received, independently of the prior log. -/
theorem last_full_history_wins (st : SessionState) (evs : List SendEvent)
    (e : SendEvent) (hav : st.api_available = true)
    (hall : ∀ x ∈ evs ++ [e], fullHistoryEvent x = true) :
    (runSends st (evs ++ [e])).messages =
      convertHistory (e.result.conversationHistory.getD []) := by
  have he : fullHistoryEvent e = true := hall e (by simp)
  have hstep : runSends st (evs ++ [e]) =
      (handleChatInput (runSends st evs) e.prompt e.result e.t1 e.t2).1 := by
    simp [runSends, List.foldl_append]
  have hav2 : (runSends st evs).api_available = true := by
    rw [runSends_api]; exact hav
  rw [hstep]
  simp only [fullHistoryEvent, Bool.and_eq_true, Bool.not_eq_true',
    Option.isNone_iff_eq_none] at he
  obtain ⟨herr, hne⟩ := he
  cases hch : e.result.conversationHistory with
  | none => rw [hch] at hne; simp at hne
  | some h =>
      rw [hch] at hne
      simp only [Option.getD_some] at hne
      simp [handleChatInput, hav2, processResult, herr, hch, hne]

/-- Witness for C2: two concrete full-history sends; the log ends as the
conversion of the second history. -/
theorem last_full_history_wins_witness :
    (⟨[⟨"assistant", "stale", none⟩], "thread_20250101_000000", true⟩ :
        SessionState).api_available = true ∧
    (∀ x ∈ [⟨"a", ⟨none, some "r1", some [⟨some "user", some "a", none⟩]⟩, 1, 2⟩] ++
        [(⟨"b", ⟨none, none, some [⟨none, none, some 7⟩, ⟨some "user", some "b", none⟩]⟩, 3, 4⟩ : SendEvent)],
      fullHistoryEvent x = true) ∧
    (runSends ⟨[⟨"assistant", "stale", none⟩], "thread_20250101_000000", true⟩
        ([⟨"a", ⟨none, some "r1", some [⟨some "user", some "a", none⟩]⟩, 1, 2⟩] ++
         [⟨"b", ⟨none, none, some [⟨none, none, some 7⟩, ⟨some "user", some "b", none⟩]⟩, 3, 4⟩])).messages =
      convertHistory ((⟨"b", ⟨none, none, some [⟨none, none, some 7⟩, ⟨some "user", some "b", none⟩]⟩, 3, 4⟩ :
        SendEvent).result.conversationHistory.getD []) :=
  ⟨rfl, by decide, last_full_history_wins _ _ _ rfl (by decide)⟩

/-- C3: a successful send whose result carries only a single response string
(no `"error"` key, no `conversationHistory` key) appends exactly the user
message followed by the assistant response, leaving every prior entry in
place. -/
theorem single_response_appends_two (st : SessionState) (prompt resp : String)
    (r : ChatResult) (t1 t2 : Int) (hav : st.api_available = true)
    (herr : r.error = none) (hch : r.conversationHistory = none)
    (hresp : r.response = some resp) :
    (handleChatInput st prompt r t1 t2).1.messages =
      st.messages ++
        [⟨"user", prompt, some t1⟩, ⟨"assistant", resp, some t2⟩] ∧
    (handleChatInput st prompt r t1 t2).1.messages.length =
      st.messages.length + 2 := by
  have hmain : (handleChatInput st prompt r t1 t2).1.messages =
      st.messages ++ [⟨"user", prompt, some t1⟩, ⟨"assistant", resp, some t2⟩] := by
    simp [handleChatInput, hav, processResult, appendPair, herr, hch, hresp]
  exact ⟨hmain, by rw [hmain]; simp⟩

/-- Witness for C3: the spec scenario — submitting `"hello"` against a result
`{response: "hi there"}` appends the user/assistant pair. -/
theorem single_response_appends_two_witness :
    (⟨[⟨"assistant", "old", some 9⟩], "thread_20250101_000000", true⟩ :
        SessionState).api_available = true ∧
    (⟨none, some "hi there", none⟩ : ChatResult).error = none ∧
    (⟨none, some "hi there", none⟩ : ChatResult).conversationHistory = none ∧
    (⟨none, some "hi there", none⟩ : ChatResult).response = some "hi there" ∧
    (handleChatInput ⟨[⟨"assistant", "old", some 9⟩], "thread_20250101_000000", true⟩
        "hello" ⟨none, some "hi there", none⟩ 1 2).1.messages =
      [⟨"assistant", "old", some 9⟩] ++
        [⟨"user", "hello", some 1⟩, ⟨"assistant", "hi there", some 2⟩] :=
  ⟨rfl, rfl, rfl, rfl,
    (single_response_appends_two _ "hello" "hi there" _ 1 2 rfl rfl rfl rfl).1⟩

/-- C4 counterexample: a successful result with BOTH keys present — the
`conversationHistory` key holding the empty list and a `response` string — is
NOT handled by the full-history replacement policy: the truthiness check on
line 176 sends it to the fallback branch, which appends the single response.
Replacing with the provided (empty) history would leave the log empty; the
code instead produces the two appended messages. -/
theorem both_keys_empty_history_cex :
    (⟨none, some "hi", some []⟩ : ChatResult).conversationHistory = some [] ∧
    (⟨none, some "hi", some []⟩ : ChatResult).response = some "hi" ∧
    (handleChatInput ⟨[], "thread_20250101_000000", true⟩ "q"
        ⟨none, some "hi", some []⟩ 1 2).1.messages ≠ convertHistory [] ∧
    (handleChatInput ⟨[], "thread_20250101_000000", true⟩ "q"
        ⟨none, some "hi", some []⟩ 1 2).1.messages =
      [⟨"user", "q", some 1⟩, ⟨"assistant", "hi", some 2⟩] := by
  refine ⟨rfl, rfl, ?_, rfl⟩
  decide

/-- C4 (amended): when a successful result has both the `conversationHistory`
key and the `response` key present and the history is a NONEMPTY list, the
full-history replacement policy is applied and the single response string is
not appended; a present-but-empty history key instead falls through to the
single-response append. -/
theorem full_history_wins_when_nonempty (st : SessionState) (prompt : String)
    (r : ChatResult) (h : List RawMsg) (resp : String) (t1 t2 : Int)
    (hav : st.api_available = true) (herr : r.error = none)
    (hch : r.conversationHistory = some h) (hne : h ≠ [])
    (hresp : r.response = some resp) :
    (handleChatInput st prompt r t1 t2).1.messages = convertHistory h := by
  have hemp : h.isEmpty = false := by
    cases h with
    | nil => exact absurd rfl hne
    | cons a t => rfl
  simp [handleChatInput, hav, processResult, herr, hch, hemp]

/-- Witness for C4's amended theorem: both keys present, nonempty history;
the log becomes the converted history. -/
theorem full_history_wins_when_nonempty_witness :
    (⟨[⟨"user", "old", none⟩], "thread_20250101_000000", true⟩ :
        SessionState).api_available = true ∧
    (⟨none, some "ignored", some [⟨none, some "c", none⟩]⟩ : ChatResult).error = none ∧
    (⟨none, some "ignored", some [⟨none, some "c", none⟩]⟩ : ChatResult).conversationHistory =
      some [⟨none, some "c", none⟩] ∧
    ([(⟨none, some "c", none⟩ : RawMsg)] ≠ []) ∧
    (⟨none, some "ignored", some [⟨none, some "c", none⟩]⟩ : ChatResult).response =
      some "ignored" ∧
    (handleChatInput ⟨[⟨"user", "old", none⟩], "thread_20250101_000000", true⟩
        "q" ⟨none, some "ignored", some [⟨none, some "c", none⟩]⟩ 1 2).1.messages =
      convertHistory [⟨none, some "c", none⟩] :=
  ⟨rfl, rfl, rfl, by decide, rfl,
    full_history_wins_when_nonempty _ "q" _ _ "ignored" 1 2 rfl rfl rfl (by decide) rfl⟩

/-- C5 counterexample: the minted thread identifier is
`"thread_" ++ strftime('%Y%m%d_%H%M%S')`, which has second granularity; a
clear performed in the same formatted second in which the current identifier
was minted reproduces the SAME identifier, refuting "a thread identifier
different from the thread identifier held immediately before the clear". -/
theorem clear_same_second_cex :
    (clearChat ⟨[⟨"user", "x", none⟩], "thread_20250101_120000", true⟩
        "20250101_120000").thread_id =
      (⟨[⟨"user", "x", none⟩], "thread_20250101_120000", true⟩ :
        SessionState).thread_id ∧
    (clearChat ⟨[⟨"user", "x", none⟩], "thread_20250101_120000", true⟩
        "20250101_120000").messages = [] := by
  exact ⟨rfl, rfl⟩

/-- C5 (amended): clearing resets the log to empty and sets the thread
identifier to `"thread_" ++ <formatted clear time>`, with no backend call
(`clearChat` consumes no network oracle); the new identifier differs from the
previous one exactly when the previous identifier is not the token of the same
formatted second — in particular it is NOT always different. -/
theorem clear_resets_and_mints (st : SessionState) (nowStr : String)
    (hdiff : "thread_" ++ nowStr ≠ st.thread_id) :
    (clearChat st nowStr).messages = [] ∧
    (clearChat st nowStr).thread_id = "thread_" ++ nowStr ∧
    (clearChat st nowStr).thread_id ≠ st.thread_id :=
  ⟨rfl, rfl, hdiff⟩

/-- Witness for C5's amended theorem: a clear in a fresh second yields the
empty log and a different identifier. -/
theorem clear_resets_and_mints_witness :
    ("thread_" ++ "20250101_120001" ≠
      (⟨[⟨"user", "x", none⟩], "thread_20250101_120000", true⟩ :
        SessionState).thread_id) ∧
    ((clearChat ⟨[⟨"user", "x", none⟩], "thread_20250101_120000", true⟩
        "20250101_120001").messages = [] ∧
     (clearChat ⟨[⟨"user", "x", none⟩], "thread_20250101_120000", true⟩
        "20250101_120001").thread_id = "thread_" ++ "20250101_120001" ∧
     (clearChat ⟨[⟨"user", "x", none⟩], "thread_20250101_120000", true⟩
        "20250101_120001").thread_id ≠
       (⟨[⟨"user", "x", none⟩], "thread_20250101_120000", true⟩ :
         SessionState).thread_id) :=
  ⟨by decide, clear_resets_and_mints _ "20250101_120001" (by decide)⟩

/-- C6: while `api_available` is false a submission is rejected by the guard
on lines 151-153: the state is returned untouched and the network-call flag is
false (`send_message` is never reached). -/
theorem unavailable_send_rejected (st : SessionState) (prompt : String)
    (r : ChatResult) (t1 t2 : Int) (hun : st.api_available = false) :
    handleChatInput st prompt r t1 t2 = (st, false) := by
  simp [handleChatInput, hun]

/-- Witness for C6: a concrete unavailable state rejects a concrete send. -/
theorem unavailable_send_rejected_witness :
    (⟨[⟨"user", "old", none⟩], "thread_20250101_000000", false⟩ :
        SessionState).api_available = false ∧
    handleChatInput ⟨[⟨"user", "old", none⟩], "thread_20250101_000000", false⟩
        "hello" ⟨none, some "hi", none⟩ 1 2 =
      (⟨[⟨"user", "old", none⟩], "thread_20250101_000000", false⟩, false) :=
  ⟨rfl, unavailable_send_rejected _ "hello" _ 1 2 rfl⟩

/-- C7: an explicit history reload against an available API that returns the
empty history list leaves the whole state (in particular every log entry)
unchanged and surfaces the informational `"No history found"` notice, not an
error and not a cleared log. -/
theorem empty_reload_keeps_log (st : SessionState)
    (hav : st.api_available = true) (hne : st.messages ≠ []) :
    (loadHistoryClick st []).1 = st ∧
    (loadHistoryClick st []).2 = Notice.info := by
  constructor
  · simp [loadHistoryClick, hav]
  · simp [loadHistoryClick, hav]

/-- Witness for C7: a concrete nonempty log survives an empty reload with the
info notice. -/
theorem empty_reload_keeps_log_witness :
    (⟨[⟨"user", "old", none⟩], "thread_20250101_000000", true⟩ :
        SessionState).api_available = true ∧
    ([(⟨"user", "old", none⟩ : Message)] ≠ []) ∧
    ((loadHistoryClick ⟨[⟨"user", "old", none⟩], "thread_20250101_000000", true⟩ []).1 =
        ⟨[⟨"user", "old", none⟩], "thread_20250101_000000", true⟩ ∧
     (loadHistoryClick ⟨[⟨"user", "old", none⟩], "thread_20250101_000000", true⟩ []).2 =
        Notice.info) :=
  ⟨rfl, by decide, empty_reload_keeps_log _ rfl (by decide)⟩

/-- C8 counterexample: for a send failing with a network error (a request
exception that is not a timeout and produces no HTTP response, hence no body
text), the claim's only applicable display-text clause predicts the generic
`"No response received"` fallback, but the code appends
`"Error: Error connecting to API: <description>"`: `send_message` always sets
the `response` key on this path, so the fallback is never used. -/
theorem network_failure_text_cex :
    (handleChatInput ⟨[], "thread_20250101_000000", true⟩ "hello"
        (send_message (SendOutcome.netError "boom")) 1 2).1.messages =
      [⟨"user", "hello", some 1⟩,
       ⟨"assistant", "Error: Error connecting to API: boom", some 2⟩] ∧
    (handleChatInput ⟨[], "thread_20250101_000000", true⟩ "hello"
        (send_message (SendOutcome.netError "boom")) 1 2).1.messages ≠
      [⟨"user", "hello", some 1⟩,
       ⟨"assistant", "Error: No response received", some 2⟩] := by
  refine ⟨rfl, ?_⟩
  decide

/-- C8 (amended): every send yielding an error result (timeout, network
failure, or non-200 HTTP response) appends exactly the user message followed
by an assistant message whose content is `"Error: "` followed by the error's
display text — the fixed timeout sentence on timeout, the literal raw response
body on a non-200 response, and `"Error connecting to API: "` plus the failure
description on any other network failure; the generic `"No response received"`
fallback would apply only to a result lacking the `response` key, which none of
these three error paths produces. -/
theorem error_send_appends_marked_pair (st : SessionState) (prompt : String)
    (o : SendOutcome) (t1 t2 : Int) (hav : st.api_available = true)
    (ho : isErrorOutcome o = true) :
    (handleChatInput st prompt (send_message o) t1 t2).1.messages =
      st.messages ++
        [⟨"user", prompt, some t1⟩,
         ⟨"assistant", "Error: " ++ errorDisplayText o, some t2⟩] := by
  cases o with
  | http status json body =>
      simp only [isErrorOutcome, bne_iff_ne, ne_eq] at ho
      simp [handleChatInput, hav, send_message, ho, processResult, appendPair,
        errorDisplayText]
  | timeout =>
      simp [handleChatInput, hav, send_message, processResult, appendPair,
        errorDisplayText]
  | netError desc =>
      simp [handleChatInput, hav, send_message, processResult, appendPair,
        errorDisplayText]

/-- Witness for C8's amended theorem: the spec's timeout scenario — the log
gains the user message and the `"Error: The request took too long. Please try
again."` assistant message. -/
theorem error_send_appends_marked_pair_witness :
    (⟨[], "thread_20250101_000000", true⟩ : SessionState).api_available = true ∧
    isErrorOutcome SendOutcome.timeout = true ∧
    (handleChatInput ⟨[], "thread_20250101_000000", true⟩ "hello"
        (send_message SendOutcome.timeout) 1 2).1.messages =
      [] ++ [⟨"user", "hello", some 1⟩,
        ⟨"assistant", "Error: " ++ errorDisplayText SendOutcome.timeout, some 2⟩] :=
  ⟨rfl, rfl, error_send_appends_marked_pair _ "hello" SendOutcome.timeout 1 2 rfl rfl⟩

/-- C9: a 200-status result whose JSON body contains an `"error"` key is
processed by the error path — the user message plus an `"Error: "`-prefixed
assistant message are appended — even when the same body also carries a
nonempty `conversationHistory`: the `"error" in result` check on line 160
precedes the `conversationHistory` check on line 176. -/
theorem error_key_beats_history (st : SessionState) (prompt e : String)
    (r : ChatResult) (h : List RawMsg) (t1 t2 : Int)
    (hav : st.api_available = true) (herr : r.error = some e)
    (hch : r.conversationHistory = some h) (hne : h ≠ []) :
    (handleChatInput st prompt r t1 t2).1.messages =
      st.messages ++
        [⟨"user", prompt, some t1⟩,
         ⟨"assistant", "Error: " ++ r.response.getD "No response received", some t2⟩] := by
  simp [handleChatInput, hav, processResult, appendPair, herr]

/-- Witness for C9: a 200 body with an `"error"` key, a `response` and a
nonempty `conversationHistory` takes the error path, ignoring the history. -/
theorem error_key_beats_history_witness :
    (⟨[⟨"user", "old", none⟩], "thread_20250101_000000", true⟩ :
        SessionState).api_available = true ∧
    (⟨some "bad state", some "oops", some [⟨some "user", some "q", none⟩]⟩ :
        ChatResult).error = some "bad state" ∧
    (⟨some "bad state", some "oops", some [⟨some "user", some "q", none⟩]⟩ :
        ChatResult).conversationHistory = some [⟨some "user", some "q", none⟩] ∧
    ([(⟨some "user", some "q", none⟩ : RawMsg)] ≠ []) ∧
    (handleChatInput ⟨[⟨"user", "old", none⟩], "thread_20250101_000000", true⟩
        "q" ⟨some "bad state", some "oops", some [⟨some "user", some "q", none⟩]⟩
        1 2).1.messages =
      [⟨"user", "old", none⟩] ++
        [⟨"user", "q", some 1⟩, ⟨"assistant", "Error: oops", some 2⟩] :=
  ⟨rfl, rfl, rfl, by decide,
    error_key_beats_history _ "q" "bad state" _ _ 1 2 rfl rfl rfl (by decide)⟩

/-- C10: the clear operation modifies only the messages log and the thread
identifier; the `api_available` flag is carried over unchanged, as the full
record equation shows. -/
theorem clear_frame (st : SessionState) (nowStr : String) :
    clearChat st nowStr =
      { messages := [], thread_id := "thread_" ++ nowStr,
        api_available := st.api_available } :=
  rfl
